import Mathlib

/-!
Verification of the exapy client library (src/exapy/client.py and
src/exapy/models.py) as a shallow embedding in Lean 4.

The embedding models:
* JSON values (as delivered by `response.json()`), with JSON integers and
  JSON fractional numbers kept as distinct constructors, since Python's
  `json` module parses them into distinct runtime kinds (`int` vs `float`);
* pydantic model validation at the level of the declared field annotations:
  a field annotated `str` accepts exactly JSON strings, `bool` exactly JSON
  booleans, `int` exactly JSON integers, `float` JSON numbers (integral or
  fractional, matching pydantic's int-to-float coercion witnessed by the
  repository's own tests), `Optional[T]` without a default is required
  but nullable — a missing key is a required-field error while an
  explicit `null` validates to `None` (pydantic v2 semantics, the version
  the repository's own test suite pins by expecting an integer `name` to
  be rejected for a `str` field), a `Union` of scalar kinds matches the
  JSON scalar kind, and an `Enum` field accepts exactly the declared
  member values.  Validation of a model either produces the record or
  fails with the list of violating field names (pydantic collects all
  field errors, not only the first);
* the envelope decoders `Client._get_data`, `Client._post_object`,
  `Client._put_object`, `Client._delete_object`: parse the body into
  `Response`, return `data` on `success`, raise `ExaError(error)` otherwise,
  with the POST/PUT/DELETE variants additionally asserting `data is not None`;
* the typed operations the claims mention (`account`, `servers`, `start`,
  `stop`, `restart`), whose `assert isinstance(...)` shape checks are
  embedded as a shape-mismatch error kind distinct from the remote error.
-/

/- JSON values, mutually defined with JSON arrays (`JsonList`) and JSON
objects (`JsonObj`, association lists of string keys and values).  `int`
and `float` are separate constructors because Python's JSON parser yields
distinct `int` and `float` objects; the fractional payload is carried as a
rational number. -/
mutual

inductive Json where
  | null
  | bool (b : Bool)
  | int (n : Int)
  | float (q : Rat)
  | str (s : String)
  | arr (xs : JsonList)
  | obj (kvs : JsonObj)

inductive JsonList where
  | nil
  | cons (x : Json) (rest : JsonList)

inductive JsonObj where
  | nil
  | cons (k : String) (v : Json) (rest : JsonObj)

end

/-- Key lookup in a JSON object, first occurrence wins (Python dicts have
unique keys, so this is faithful for well-formed payloads). -/
def JsonObj.lookup : JsonObj → String → Option Json
  | .nil, _ => Option.none
  | .cons k' v rest, k => if k' = k then Option.some v else JsonObj.lookup rest k

/-- `str` annotation: accepts exactly JSON strings. -/
def Json.asStr : Json → Option String
  | .str s => Option.some s
  | _ => Option.none

/-- `bool` annotation: accepts exactly JSON booleans. -/
def Json.asBool : Json → Option Bool
  | .bool b => Option.some b
  | _ => Option.none

/-- `int` annotation: accepts exactly JSON integers. -/
def Json.asInt : Json → Option Int
  | .int n => Option.some n
  | _ => Option.none

/-- `float` annotation: accepts JSON numbers, integral (coerced, e.g.
`42` becomes `42.0`) or fractional. -/
def Json.asFloat : Json → Option Rat
  | .int n => Option.some (n : Rat)
  | .float q => Option.some q
  | _ => Option.none

/-- `list[str]` annotation: every element must be a JSON string. -/
def JsonList.asStrList : JsonList → Option (List String)
  | .nil => Option.some []
  | .cons (.str s) rest =>
      match JsonList.asStrList rest with
      | Option.some ss => Option.some (s :: ss)
      | Option.none => Option.none
  | .cons _ _ => Option.none

/-- The `data` field of `Response` is annotated
`Optional[Union[dict, list, str, None]]`: when present and non-null it must
be a JSON object, array or string. -/
def Json.asData : Json → Option Json
  | .obj kvs => Option.some (.obj kvs)
  | .arr xs => Option.some (.arr xs)
  | .str s => Option.some (.str s)
  | _ => Option.none

/-- Whether a JSON value is the explicit `null`. -/
def Json.isNull : Json → Bool
  | .null => true
  | _ => false

/-- Whether a JSON value is acceptable for the non-null part of the
`data` field's annotation (object, array or string). -/
def Json.isDataValue : Json → Bool
  | .obj _ => true
  | .arr _ => true
  | .str _ => true
  | _ => false

/-- The field names cited by a validation failure (pydantic's
`ValidationError` locations, abstracted to the top-level field name). -/
abbrev FieldErrors := List String

/-- Applicative combination of two field validations, accumulating the
error lists of both sides the way pydantic collects every field error
rather than stopping at the first. -/
def vApp {α β : Type} : Except FieldErrors (α → β) → Except FieldErrors α → Except FieldErrors β
  | .ok f, .ok a => .ok (f a)
  | .ok _, .error e => .error e
  | .error e, .ok _ => .error e
  | .error e₁, .error e₂ => .error (e₁ ++ e₂)

/-- A required field (no `Optional`, no default): missing key, explicit
`null`, or a value rejected by the annotation's parser all fail, citing
the field name. -/
def reqField {α : Type} (kvs : JsonObj) (name : String) (p : Json → Option α) :
    Except FieldErrors α :=
  match JsonObj.lookup kvs name with
  | Option.none => .error [name]
  | Option.some v =>
      match p v with
      | Option.some a => .ok a
      | Option.none => .error [name]

/-- An `Optional[...]` field without a default (pydantic v2 semantics,
the version the repository's own tests pin): the key is required but
nullable — a missing key fails citing the field, an explicit `null`
validates to `none`, and a present non-null value must satisfy the inner
annotation's parser, else the field is cited. -/
def optField {α : Type} (kvs : JsonObj) (name : String) (p : Json → Option α) :
    Except FieldErrors (Option α) :=
  match JsonObj.lookup kvs name with
  | Option.none => .error [name]
  | Option.some v =>
      if Json.isNull v then .ok Option.none
      else
        match p v with
        | Option.some a => .ok (Option.some a)
        | Option.none => .error [name]

/-- A required nested-model field: the sub-model must validate; a failure
anywhere inside is cited under this field's name. -/
def reqSub {α : Type} (kvs : JsonObj) (name : String)
    (sub : Json → Except FieldErrors α) : Except FieldErrors α :=
  match JsonObj.lookup kvs name with
  | Option.none => .error [name]
  | Option.some v =>
      match sub v with
      | .ok a => .ok a
      | .error _ => .error [name]

/-- An `Optional[...]` nested-model field without a default: required
but nullable, like `optField`. -/
def optSub {α : Type} (kvs : JsonObj) (name : String)
    (sub : Json → Except FieldErrors α) : Except FieldErrors (Option α) :=
  match JsonObj.lookup kvs name with
  | Option.none => .error [name]
  | Option.some v =>
      if Json.isNull v then .ok Option.none
      else
        match sub v with
        | .ok a => .ok (Option.some a)
        | .error _ => .error [name]

/-- The `Response` envelope model of client.py:
`success: bool`, `error: Optional[str]`, `data: Optional[Union[dict, list, str, None]]`. -/
structure ResponseModel where
  success : Bool
  error : Option String
  data : Option Json

/-- `Response(**raw)`: the body must be a JSON object; `success` is a
required boolean, `error` a required-but-nullable string, `data` a
required-but-nullable object/array/string. -/
def ResponseModel.validate (j : Json) : Except FieldErrors ResponseModel :=
  match j with
  | .obj kvs =>
      vApp (vApp (vApp (.ok ResponseModel.mk)
        (reqField kvs "success" Json.asBool))
        (optField kvs "error" Json.asStr))
        (optField kvs "data" Json.asData)
  | _ => .error ["__root__"]

/-- The error kinds an operation can surface: `remoteOperationError`
embeds `ExaError(response_data.error)` (the spec's `RemoteOperationError`;
its message is the envelope's `error` field, possibly `None`);
`shapeMismatchError` embeds a failed `assert` about the payload's
Python-level shape (the spec's `ShapeMismatchError`, Python's
`AssertionError`); `validationError` embeds pydantic's `ValidationError`
carrying the violating field names. -/
inductive ClientError where
  | remoteOperationError (msg : Option String)
  | shapeMismatchError
  | validationError (fields : FieldErrors)

/-- `Client._get_data`: parse the body as `Response`; on `success` return
`data` (possibly `None`); otherwise raise `ExaError(error)`. -/
def getData (raw : Json) : Except ClientError (Option Json) :=
  match ResponseModel.validate raw with
  | .error es => .error (.validationError es)
  | .ok r =>
      if r.success then .ok r.data
      else .error (.remoteOperationError r.error)

/-- `Client._post_object`: like `_get_data` but with
`assert response_data.data is not None` before returning. -/
def postObject (raw : Json) : Except ClientError (Option Json) :=
  match ResponseModel.validate raw with
  | .error es => .error (.validationError es)
  | .ok r =>
      if r.success then
        match r.data with
        | Option.none => .error .shapeMismatchError
        | Option.some d => .ok (Option.some d)
      else .error (.remoteOperationError r.error)

/-- `Client._put_object`: identical decoding to `_post_object`. -/
def putObject (raw : Json) : Except ClientError (Option Json) :=
  match ResponseModel.validate raw with
  | .error es => .error (.validationError es)
  | .ok r =>
      if r.success then
        match r.data with
        | Option.none => .error .shapeMismatchError
        | Option.some d => .ok (Option.some d)
      else .error (.remoteOperationError r.error)

/-- `Client._delete_object`: identical decoding to `_post_object`. -/
def deleteObject (raw : Json) : Except ClientError (Option Json) :=
  match ResponseModel.validate raw with
  | .error es => .error (.validationError es)
  | .ok r =>
      if r.success then
        match r.data with
        | Option.none => .error .shapeMismatchError
        | Option.some d => .ok (Option.some d)
      else .error (.remoteOperationError r.error)

/-- The `ServerStatus` enum of models.py: named codes 0-8 and 10, the
code 9 intentionally unused. -/
inductive ServerStatus where
  | offline
  | online
  | starting
  | stopping
  | restarting
  | saving
  | loading
  | crashed
  | pending
  | preparing

/-- Enum decoding for `ServerStatus`: an integer maps to the member with
that value, any other integer is rejected. -/
def ServerStatus.ofInt (n : Int) : Option ServerStatus :=
  if n = 0 then Option.some .offline
  else if n = 1 then Option.some .online
  else if n = 2 then Option.some .starting
  else if n = 3 then Option.some .stopping
  else if n = 4 then Option.some .restarting
  else if n = 5 then Option.some .saving
  else if n = 6 then Option.some .loading
  else if n = 7 then Option.some .crashed
  else if n = 8 then Option.some .pending
  else if n = 10 then Option.some .preparing
  else Option.none

/-- A `status: ServerStatus` field accepts exactly the JSON integers that
are declared member values. -/
def ServerStatus.ofJson : Json → Option ServerStatus
  | .int n => ServerStatus.ofInt n
  | _ => Option.none

/-- The `Account` model: `name: str`, `email: str`, `verified: bool`,
`credits: float`. -/
structure Account where
  name : String
  email : String
  verified : Bool
  credits : Rat

/-- The error list of a field validation outcome: empty on success. -/
def exErrors {α : Type} : Except FieldErrors α → FieldErrors
  | .ok _ => []
  | .error es => es

/-- The concatenation of the per-field error lists of `Account(**data)`,
in field declaration order: exactly the fields pydantic's
`ValidationError` enumerates. -/
def Account.fieldErrors (kvs : JsonObj) : FieldErrors :=
  exErrors (reqField kvs "name" Json.asStr) ++
  exErrors (reqField kvs "email" Json.asStr) ++
  exErrors (reqField kvs "verified" Json.asBool) ++
  exErrors (reqField kvs "credits" Json.asFloat)

/-- `Account(**data)`: all four fields must validate, errors accumulated. -/
def Account.validate (j : Json) : Except FieldErrors Account :=
  match j with
  | .obj kvs =>
      vApp (vApp (vApp (vApp (.ok Account.mk)
        (reqField kvs "name" Json.asStr))
        (reqField kvs "email" Json.asStr))
        (reqField kvs "verified" Json.asBool))
        (reqField kvs "credits" Json.asFloat)
  | _ => .error ["__root__"]

/-- The `ServerPlayers` model: `max: int`, `count: int`, `list: list[str]`. -/
structure ServerPlayers where
  max : Int
  count : Int
  list : List String

/-- `ServerPlayers` validation. -/
def ServerPlayers.validate (j : Json) : Except FieldErrors ServerPlayers :=
  match j with
  | .obj kvs =>
      vApp (vApp (vApp (.ok ServerPlayers.mk)
        (reqField kvs "max" Json.asInt))
        (reqField kvs "count" Json.asInt))
        (reqField kvs "list" (fun v =>
          match v with
          | .arr xs => JsonList.asStrList xs
          | _ => Option.none))
  | _ => .error ["__root__"]

/-- The `ServerSoftware` model: `id: str`, `name: str`, `version: str`. -/
structure ServerSoftware where
  id : String
  name : String
  version : String

/-- `ServerSoftware` validation. -/
def ServerSoftware.validate (j : Json) : Except FieldErrors ServerSoftware :=
  match j with
  | .obj kvs =>
      vApp (vApp (vApp (.ok ServerSoftware.mk)
        (reqField kvs "id" Json.asStr))
        (reqField kvs "name" Json.asStr))
        (reqField kvs "version" Json.asStr)
  | _ => .error ["__root__"]

/-- The `Server` model: required strings `id`, `name`, `address`, `motd`,
an enum `status`, optional `host`/`port`, nested `players`, optional
nested `software`, and a boolean `shared`. -/
structure Server where
  id : String
  name : String
  address : String
  motd : String
  status : ServerStatus
  host : Option String
  port : Option Int
  players : ServerPlayers
  software : Option ServerSoftware
  shared : Bool

/-- `Server(**data)`: every field validates or the whole construction
fails, errors accumulated in field declaration order. -/
def Server.validate (j : Json) : Except FieldErrors Server :=
  match j with
  | .obj kvs =>
      vApp (vApp (vApp (vApp (vApp (vApp (vApp (vApp (vApp (vApp (.ok Server.mk)
        (reqField kvs "id" Json.asStr))
        (reqField kvs "name" Json.asStr))
        (reqField kvs "address" Json.asStr))
        (reqField kvs "motd" Json.asStr))
        (reqField kvs "status" ServerStatus.ofJson))
        (optField kvs "host" Json.asStr))
        (optField kvs "port" Json.asInt))
        (reqSub kvs "players" ServerPlayers.validate))
        (optSub kvs "software" ServerSoftware.validate))
        (reqField kvs "shared" Json.asBool)
  | _ => .error ["__root__"]

/-- The concatenation of the per-field error lists of `Server(**data)`,
in field declaration order: exactly the fields pydantic's
`ValidationError` enumerates. -/
def Server.fieldErrors (kvs : JsonObj) : FieldErrors :=
  exErrors (reqField kvs "id" Json.asStr) ++
  exErrors (reqField kvs "name" Json.asStr) ++
  exErrors (reqField kvs "address" Json.asStr) ++
  exErrors (reqField kvs "motd" Json.asStr) ++
  exErrors (reqField kvs "status" ServerStatus.ofJson) ++
  exErrors (optField kvs "host" Json.asStr) ++
  exErrors (optField kvs "port" Json.asInt) ++
  exErrors (reqSub kvs "players" ServerPlayers.validate) ++
  exErrors (optSub kvs "software" ServerSoftware.validate) ++
  exErrors (reqField kvs "shared" Json.asBool)

/- The recursive `PathInfo` model of models.py, mutually defined with its
optional children (`Optional[list["PathInfo"]]`) so that all recursion is
structural: `PathChildren.none` is the validated form of a missing or
null `children` key, `PathChildren.some` holds the ordered child list. -/
mutual

inductive PathInfo where
  | mk (path : String) (name : String)
      (isTextFile : Bool) (isConfigFile : Bool) (isDirectory : Bool)
      (isLog : Bool) (isReadable : Bool) (isWritable : Bool)
      (size : Int) (children : PathChildren)

inductive PathChildren where
  | none
  | some (xs : PathInfoList)

inductive PathInfoList where
  | nil
  | cons (p : PathInfo) (rest : PathInfoList)

end

/-- The `children` component of a validated `PathInfo` node. -/
def PathInfo.children : PathInfo → PathChildren
  | .mk _ _ _ _ _ _ _ _ _ c => c

/- Recursive validation of `PathInfo(**data)`.  The wire keys of the six
boolean flags go through the per-field declared aliases (`isTextFile`,
`isConfigFile`, `isDirectory`, `isLog`, `isReadable`, `isWritable`).
`PathInfo.childrenOf` walks the object for the `children` key (first
occurrence, as key lookup); the key is required but nullable: a missing
key fails citing `children`, a null value is a leaf, a list value is
validated element by element, recursively, with no depth limit, and
anything else fails citing `children`. -/
mutual

def PathInfo.validate : Json → Except FieldErrors PathInfo
  | .obj kvs =>
      vApp (vApp (vApp (vApp (vApp (vApp (vApp (vApp (vApp (vApp (.ok PathInfo.mk)
        (reqField kvs "path" Json.asStr))
        (reqField kvs "name" Json.asStr))
        (reqField kvs "isTextFile" Json.asBool))
        (reqField kvs "isConfigFile" Json.asBool))
        (reqField kvs "isDirectory" Json.asBool))
        (reqField kvs "isLog" Json.asBool))
        (reqField kvs "isReadable" Json.asBool))
        (reqField kvs "isWritable" Json.asBool))
        (reqField kvs "size" Json.asInt))
        (PathInfo.childrenOf kvs)
  | _ => .error ["__root__"]

def PathInfo.childrenOf : JsonObj → Except FieldErrors PathChildren
  | .nil => .error ["children"]
  | .cons k v rest =>
      if k = "children" then PathInfo.childrenValue v
      else PathInfo.childrenOf rest

def PathInfo.childrenValue : Json → Except FieldErrors PathChildren
  | .null => .ok PathChildren.none
  | .arr xs =>
      match PathInfo.validateList xs with
      | .ok ps => .ok (PathChildren.some ps)
      | .error _ => .error ["children"]
  | _ => .error ["children"]

def PathInfo.validateList : JsonList → Except FieldErrors PathInfoList
  | .nil => .ok PathInfoList.nil
  | .cons x rest =>
      vApp (vApp (.ok PathInfoList.cons)
        (PathInfo.validate x))
        (PathInfo.validateList rest)

end

/- Nesting depth of a validated `PathInfo` tree: a leaf has depth 1, a
node with children has depth one more than its deepest child. -/
mutual

def PathInfo.depth : PathInfo → Nat
  | .mk _ _ _ _ _ _ _ _ _ c => 1 + PathChildren.depth c

def PathChildren.depth : PathChildren → Nat
  | .none => 0
  | .some xs => PathInfoList.depth xs

def PathInfoList.depth : PathInfoList → Nat
  | .nil => 0
  | .cons p rest => Nat.max (PathInfo.depth p) (PathInfoList.depth rest)

end

/-- The polymorphic scalar of `ConfigOption.value`: the union
`Union[str, int, float, bool]` as a tagged variant, so the original
scalar kind of the wire value is visible in the validated record. -/
inductive ScalarValue where
  | str (s : String)
  | int (n : Int)
  | float (q : Rat)
  | bool (b : Bool)

/-- Union field validation: the JSON scalar kind selects the matching
union member, preserving the value; objects, arrays and null are
rejected. -/
def Json.asScalar : Json → Option ScalarValue
  | .str s => Option.some (.str s)
  | .int n => Option.some (.int n)
  | .float q => Option.some (.float q)
  | .bool b => Option.some (.bool b)
  | _ => Option.none

/-- `Optional[list[Union[str, int, float, bool]]]` element validation. -/
def JsonList.asScalarList : JsonList → Option (List ScalarValue)
  | .nil => Option.some []
  | .cons x rest =>
      match Json.asScalar x, JsonList.asScalarList rest with
      | Option.some s, Option.some ss => Option.some (s :: ss)
      | _, _ => Option.none

/-- The non-null part of the `options` annotation: a JSON array of
scalars of the declared union. -/
def Json.asScalarOptions : Json → Option (List ScalarValue)
  | .arr xs => JsonList.asScalarList xs
  | _ => Option.none

/-- The `ConfigOption` model: `key: str`,
`value: Union[str, int, float, bool]`, `label: str`, `type: str` (a plain
string field; the source declares no cross-field constraint between
`type` and `value`), `options: Optional[list[Union[str, int, float, bool]]]`. -/
structure ConfigOption where
  key : String
  value : ScalarValue
  label : String
  type : String
  options : Option (List ScalarValue)

/-- `ConfigOption(**data)`: each field validated independently against
its own annotation; the `type` discriminator is not consulted when
validating `value` or `options`. -/
def ConfigOption.validate (j : Json) : Except FieldErrors ConfigOption :=
  match j with
  | .obj kvs =>
      vApp (vApp (vApp (vApp (vApp (.ok ConfigOption.mk)
        (reqField kvs "key" Json.asStr))
        (reqField kvs "value" Json.asScalar))
        (reqField kvs "label" Json.asStr))
        (reqField kvs "type" Json.asStr))
        (optField kvs "options" Json.asScalarOptions)
  | _ => .error ["__root__"]

/-- `Client.account`: unwrap the envelope, `assert isinstance(data, dict)`,
then `models.Account(**data)`. -/
def Client.account (raw : Json) : Except ClientError Account :=
  match getData raw with
  | .error e => .error e
  | .ok (Option.some (.obj kvs)) =>
      match Account.validate (.obj kvs) with
      | .ok a => .ok a
      | .error es => .error (.validationError es)
  | .ok _ => .error .shapeMismatchError

/-- The loop of `Client.servers`: `models.Server(**server)` for each
element in order, stopping at the first element that fails validation. -/
def Server.validateJsonList : JsonList → Except FieldErrors (List Server)
  | .nil => .ok []
  | .cons x rest =>
      match Server.validate x with
      | .error es => .error es
      | .ok s =>
          match Server.validateJsonList rest with
          | .error es => .error es
          | .ok ss => .ok (s :: ss)

/-- `Client.servers`: unwrap the envelope, `assert isinstance(data, list)`,
then validate each element into a `Server`. -/
def Client.servers (raw : Json) : Except ClientError (List Server) :=
  match getData raw with
  | .error e => .error e
  | .ok (Option.some (.arr xs)) =>
      match Server.validateJsonList xs with
      | .ok ss => .ok ss
      | .error es => .error (.validationError es)
  | .ok _ => .error .shapeMismatchError

/-- `Client.start`: with `use_own_credits=True` the request goes through
`_post_object` (which asserts `data is not None`), otherwise through
`_get_data`; then `assert isinstance(data, str) or data is None`. -/
def Client.start (raw : Json) (useOwnCredits : Bool) : Except ClientError (Option String) :=
  match (if useOwnCredits then postObject raw else getData raw) with
  | .error e => .error e
  | .ok Option.none => .ok Option.none
  | .ok (Option.some (.str s)) => .ok (Option.some s)
  | .ok (Option.some _) => .error .shapeMismatchError

/-- `Client.stop`: `_get_data`, then
`assert isinstance(data, str) or data is None`. -/
def Client.stop (raw : Json) : Except ClientError (Option String) :=
  match getData raw with
  | .error e => .error e
  | .ok Option.none => .ok Option.none
  | .ok (Option.some (.str s)) => .ok (Option.some s)
  | .ok (Option.some _) => .error .shapeMismatchError

/-- `Client.restart`: identical decoding to `Client.stop`. -/
def Client.restart (raw : Json) : Except ClientError (Option String) :=
  match getData raw with
  | .error e => .error e
  | .ok Option.none => .ok Option.none
  | .ok (Option.some (.str s)) => .ok (Option.some s)
  | .ok (Option.some _) => .error .shapeMismatchError

theorem exErrors_ok {α : Type} (a : α) : exErrors (.ok a) = [] := rfl

theorem exErrors_vApp {α β : Type} (f : Except FieldErrors (α → β)) (x : Except FieldErrors α) :
    exErrors (vApp f x) = exErrors f ++ exErrors x := by
  cases f <;> cases x <;> simp [vApp, exErrors]

theorem vApp_ok {α β : Type} {f : Except FieldErrors (α → β)} {x : Except FieldErrors α}
    {b : β} (h : vApp f x = .ok b) :
    ∃ g a, f = .ok g ∧ x = .ok a ∧ b = g a := by
  cases f with
  | error e => cases x <;> simp [vApp] at h
  | ok g =>
    cases x with
    | error e => simp [vApp] at h
    | ok a =>
      simp [vApp] at h
      exact ⟨g, a, rfl, rfl, h.symm⟩

theorem reqField_cases {α : Type} (kvs : JsonObj) (name : String) (p : Json → Option α) :
    (∃ a, reqField kvs name p = .ok a) ∨ reqField kvs name p = .error [name] := by
  rcases hl : JsonObj.lookup kvs name with _ | v
  · exact Or.inr (by simp [reqField, hl])
  · rcases hp : p v with _ | a
    · exact Or.inr (by simp [reqField, hl, hp])
    · exact Or.inl ⟨a, by simp [reqField, hl, hp]⟩

theorem optField_cases {α : Type} (kvs : JsonObj) (name : String) (p : Json → Option α) :
    (∃ a, optField kvs name p = .ok a) ∨ optField kvs name p = .error [name] := by
  rcases hl : JsonObj.lookup kvs name with _ | v
  · exact Or.inr (by simp [optField, hl])
  · by_cases hn : Json.isNull v = true
    · exact Or.inl ⟨Option.none, by simp [optField, hl, hn]⟩
    · rcases hp : p v with _ | a
      · exact Or.inr (by simp [optField, hl, hn, hp])
      · exact Or.inl ⟨Option.some a, by simp [optField, hl, hn, hp]⟩

theorem reqSub_cases {α : Type} (kvs : JsonObj) (name : String)
    (sub : Json → Except FieldErrors α) :
    (∃ a, reqSub kvs name sub = .ok a) ∨ reqSub kvs name sub = .error [name] := by
  rcases hl : JsonObj.lookup kvs name with _ | v
  · exact Or.inr (by simp [reqSub, hl])
  · rcases hs : sub v with es | a
    · exact Or.inr (by simp [reqSub, hl, hs])
    · exact Or.inl ⟨a, by simp [reqSub, hl, hs]⟩

theorem optSub_cases {α : Type} (kvs : JsonObj) (name : String)
    (sub : Json → Except FieldErrors α) :
    (∃ a, optSub kvs name sub = .ok a) ∨ optSub kvs name sub = .error [name] := by
  rcases hl : JsonObj.lookup kvs name with _ | v
  · exact Or.inr (by simp [optSub, hl])
  · by_cases hn : Json.isNull v = true
    · exact Or.inl ⟨Option.none, by simp [optSub, hl, hn]⟩
    · rcases hs : sub v with es | a
      · exact Or.inr (by simp [optSub, hl, hn, hs])
      · exact Or.inl ⟨Option.some a, by simp [optSub, hl, hn, hs]⟩

theorem ok_of_exErrors_nil {α : Type} {e : Except FieldErrors α} {nm : String}
    (hc : (∃ a, e = .ok a) ∨ e = .error [nm]) (hn : exErrors e = []) :
    ∃ a, e = .ok a := by
  rcases hc with h | h
  · exact h
  · rw [h] at hn
    simp [exErrors] at hn

theorem optField_ok_null {α : Type} {kvs : JsonObj} {name : String} (p : Json → Option α)
    (h : JsonObj.lookup kvs name = Option.some Json.null) :
    optField kvs name p = .ok Option.none := by
  simp [optField, h, Json.isNull]

theorem optField_missing {α : Type} {kvs : JsonObj} {name : String} (p : Json → Option α)
    (h : JsonObj.lookup kvs name = Option.none) :
    optField kvs name p = .error [name] := by
  simp [optField, h]

theorem optSub_ok_null {α : Type} {kvs : JsonObj} {name : String}
    (sub : Json → Except FieldErrors α)
    (h : JsonObj.lookup kvs name = Option.some Json.null) :
    optSub kvs name sub = .ok Option.none := by
  simp [optSub, h, Json.isNull]

theorem optSub_missing {α : Type} {kvs : JsonObj} {name : String}
    (sub : Json → Except FieldErrors α)
    (h : JsonObj.lookup kvs name = Option.none) :
    optSub kvs name sub = .error [name] := by
  simp [optSub, h]

theorem responseModel_fields {kvs : JsonObj} {r : ResponseModel}
    (h : ResponseModel.validate (Json.obj kvs) = .ok r) :
    reqField kvs "success" Json.asBool = .ok r.success
    ∧ optField kvs "error" Json.asStr = .ok r.error
    ∧ optField kvs "data" Json.asData = .ok r.data := by
  simp only [ResponseModel.validate] at h
  obtain ⟨g1, c, hg1, hc, hr⟩ := vApp_ok h
  obtain ⟨g2, b, hg2, hb, he1⟩ := vApp_ok hg1
  obtain ⟨g3, a, hg3, ha, he2⟩ := vApp_ok hg2
  injection hg3 with hg3
  subst hg3 he2 he1 hr
  exact ⟨ha, hb, hc⟩

theorem server_fields {kvs : JsonObj} {s : Server}
    (h : Server.validate (Json.obj kvs) = .ok s) :
    reqField kvs "id" Json.asStr = .ok s.id
    ∧ reqField kvs "name" Json.asStr = .ok s.name
    ∧ reqField kvs "address" Json.asStr = .ok s.address
    ∧ reqField kvs "motd" Json.asStr = .ok s.motd
    ∧ reqField kvs "status" ServerStatus.ofJson = .ok s.status
    ∧ optField kvs "host" Json.asStr = .ok s.host
    ∧ optField kvs "port" Json.asInt = .ok s.port
    ∧ reqSub kvs "players" ServerPlayers.validate = .ok s.players
    ∧ optSub kvs "software" ServerSoftware.validate = .ok s.software
    ∧ reqField kvs "shared" Json.asBool = .ok s.shared := by
  simp only [Server.validate] at h
  obtain ⟨g1, a10, hg1, h10, hr⟩ := vApp_ok h
  obtain ⟨g2, a9, hg2, h9, he1⟩ := vApp_ok hg1
  obtain ⟨g3, a8, hg3, h8, he2⟩ := vApp_ok hg2
  obtain ⟨g4, a7, hg4, h7, he3⟩ := vApp_ok hg3
  obtain ⟨g5, a6, hg5, h6, he4⟩ := vApp_ok hg4
  obtain ⟨g6, a5, hg6, h5, he5⟩ := vApp_ok hg5
  obtain ⟨g7, a4, hg7, h4, he6⟩ := vApp_ok hg6
  obtain ⟨g8, a3, hg8, h3, he7⟩ := vApp_ok hg7
  obtain ⟨g9, a2, hg9, h2, he8⟩ := vApp_ok hg8
  obtain ⟨g10, a1, hg10, h1, he9⟩ := vApp_ok hg9
  injection hg10 with hg10
  subst hg10 he9 he8 he7 he6 he5 he4 he3 he2 he1 hr
  exact ⟨h1, h2, h3, h4, h5, h6, h7, h8, h9, h10⟩

theorem configOption_fields {kvs : JsonObj} {c : ConfigOption}
    (h : ConfigOption.validate (Json.obj kvs) = .ok c) :
    reqField kvs "key" Json.asStr = .ok c.key
    ∧ reqField kvs "value" Json.asScalar = .ok c.value
    ∧ reqField kvs "label" Json.asStr = .ok c.label
    ∧ reqField kvs "type" Json.asStr = .ok c.type
    ∧ optField kvs "options" Json.asScalarOptions = .ok c.options := by
  simp only [ConfigOption.validate] at h
  obtain ⟨g1, a5, hg1, h5, hr⟩ := vApp_ok h
  obtain ⟨g2, a4, hg2, h4, he1⟩ := vApp_ok hg1
  obtain ⟨g3, a3, hg3, h3, he2⟩ := vApp_ok hg2
  obtain ⟨g4, a2, hg4, h2, he3⟩ := vApp_ok hg3
  obtain ⟨g5, a1, hg5, h1, he4⟩ := vApp_ok hg4
  injection hg5 with hg5
  subst hg5 he4 he3 he2 he1 hr
  exact ⟨h1, h2, h3, h4, h5⟩

theorem pathInfo_fields {kvs : JsonObj} {p : PathInfo}
    (h : PathInfo.validate (Json.obj kvs) = .ok p) :
    reqField kvs "path" Json.asStr = .ok (match p with | .mk x _ _ _ _ _ _ _ _ _ => x)
    ∧ PathInfo.childrenOf kvs = .ok (PathInfo.children p) := by
  simp only [PathInfo.validate] at h
  obtain ⟨g1, a10, hg1, h10, hr⟩ := vApp_ok h
  obtain ⟨g2, a9, hg2, h9, he1⟩ := vApp_ok hg1
  obtain ⟨g3, a8, hg3, h8, he2⟩ := vApp_ok hg2
  obtain ⟨g4, a7, hg4, h7, he3⟩ := vApp_ok hg3
  obtain ⟨g5, a6, hg5, h6, he4⟩ := vApp_ok hg4
  obtain ⟨g6, a5, hg6, h5, he5⟩ := vApp_ok hg5
  obtain ⟨g7, a4, hg7, h4, he6⟩ := vApp_ok hg6
  obtain ⟨g8, a3, hg8, h3, he7⟩ := vApp_ok hg7
  obtain ⟨g9, a2, hg9, h2, he8⟩ := vApp_ok hg8
  obtain ⟨g10, a1, hg10, h1, he9⟩ := vApp_ok hg9
  injection hg10 with hg10
  subst hg10 he9 he8 he7 he6 he5 he4 he3 he2 he1 hr
  exact ⟨h1, h10⟩

theorem getData_ok {raw : Json} {r : ResponseModel}
    (hv : ResponseModel.validate raw = .ok r) (hs : r.success = true) :
    getData raw = .ok r.data := by
  unfold getData
  rw [hv]
  simp [hs]

theorem getData_err {raw : Json} {r : ResponseModel}
    (hv : ResponseModel.validate raw = .ok r) (hs : r.success = false) :
    getData raw = .error (.remoteOperationError r.error) := by
  unfold getData
  rw [hv]
  simp [hs]

theorem postObject_ok {raw : Json} {r : ResponseModel} {d : Json}
    (hv : ResponseModel.validate raw = .ok r) (hs : r.success = true)
    (hd : r.data = Option.some d) :
    postObject raw = .ok (Option.some d) := by
  unfold postObject
  rw [hv]
  simp [hs, hd]

theorem postObject_none {raw : Json} {r : ResponseModel}
    (hv : ResponseModel.validate raw = .ok r) (hs : r.success = true)
    (hd : r.data = Option.none) :
    postObject raw = .error .shapeMismatchError := by
  unfold postObject
  rw [hv]
  simp [hs, hd]

theorem postObject_err {raw : Json} {r : ResponseModel}
    (hv : ResponseModel.validate raw = .ok r) (hs : r.success = false) :
    postObject raw = .error (.remoteOperationError r.error) := by
  unfold postObject
  rw [hv]
  simp [hs]

theorem putObject_ok {raw : Json} {r : ResponseModel} {d : Json}
    (hv : ResponseModel.validate raw = .ok r) (hs : r.success = true)
    (hd : r.data = Option.some d) :
    putObject raw = .ok (Option.some d) := by
  unfold putObject
  rw [hv]
  simp [hs, hd]

theorem putObject_err {raw : Json} {r : ResponseModel}
    (hv : ResponseModel.validate raw = .ok r) (hs : r.success = false) :
    putObject raw = .error (.remoteOperationError r.error) := by
  unfold putObject
  rw [hv]
  simp [hs]

theorem deleteObject_ok {raw : Json} {r : ResponseModel} {d : Json}
    (hv : ResponseModel.validate raw = .ok r) (hs : r.success = true)
    (hd : r.data = Option.some d) :
    deleteObject raw = .ok (Option.some d) := by
  unfold deleteObject
  rw [hv]
  simp [hs, hd]

theorem deleteObject_err {raw : Json} {r : ResponseModel}
    (hv : ResponseModel.validate raw = .ok r) (hs : r.success = false) :
    deleteObject raw = .error (.remoteOperationError r.error) := by
  unfold deleteObject
  rw [hv]
  simp [hs]

/-- Shape test of `assert isinstance(data, dict)` on an unwrapped payload. -/
def dataIsObjShape : Option Json → Bool
  | Option.some (.obj _) => true
  | _ => false

/-- Shape test of `assert isinstance(data, list)` on an unwrapped payload. -/
def dataIsListShape : Option Json → Bool
  | Option.some (.arr _) => true
  | _ => false

/-- C1: for every envelope that validates with `success = true`, envelope
decoding (`_get_data` and the POST/PUT/DELETE siblings) returns exactly
the envelope's `data` value, unaltered: `_get_data` yields `r.data`,
which is the wire `data` value whenever one of the expected shapes
(object, list, string) is present, and the three mutating decoders yield
the same value whenever it is non-null (the shape their assert expects). -/
theorem decode_success_identity (raw : Json) (r : ResponseModel)
    (hv : ResponseModel.validate raw = .ok r) (hs : r.success = true) :
    getData raw = .ok r.data
    ∧ (∀ kvs d, raw = Json.obj kvs → JsonObj.lookup kvs "data" = Option.some d →
        Json.isDataValue d = true → r.data = Option.some d)
    ∧ (∀ d, r.data = Option.some d →
        postObject raw = .ok (Option.some d)
        ∧ putObject raw = .ok (Option.some d)
        ∧ deleteObject raw = .ok (Option.some d)) := by
  refine ⟨getData_ok hv hs, ?_, ?_⟩
  · intro kvs d hraw hl hval
    subst hraw
    have hf := (responseModel_fields hv).2.2
    have he : optField kvs "data" Json.asData = .ok (Option.some d) := by
      rcases d with _ | b | n | q | s | xs | kvs2 <;>
        simp [Json.isDataValue] at hval <;>
        simp [optField, hl, Json.isNull, Json.asData]
    rw [he] at hf
    injection hf with hf
    exact hf.symm
  · intro d hd
    exact ⟨postObject_ok hv hs hd, putObject_ok hv hs hd, deleteObject_ok hv hs hd⟩

/-- C1 witness: a concrete success envelope with an object payload is
decoded to exactly that payload by the GET and POST decoders. -/
theorem decode_success_identity_witness :
    getData (Json.obj (.cons "success" (.bool true)
        (.cons "error" .null (.cons "data" (.obj .nil) .nil)))) =
      .ok (Option.some (Json.obj .nil))
    ∧ postObject (Json.obj (.cons "success" (.bool true)
        (.cons "error" .null (.cons "data" (.obj .nil) .nil)))) =
      .ok (Option.some (Json.obj .nil)) := by
  have h := decode_success_identity
    (Json.obj (.cons "success" (.bool true)
      (.cons "error" .null (.cons "data" (.obj .nil) .nil))))
    (ResponseModel.mk true Option.none (Option.some (Json.obj .nil))) rfl rfl
  exact ⟨h.1, (h.2.2 (Json.obj .nil) rfl).1⟩

/-- C2: for every envelope that validates with `success = false`, each of
the four decoders raises `ExaError(response_data.error)` — the remote
error kind carrying the envelope's `error` field verbatim — regardless of
what `data` contains. -/
theorem decode_failure_error_verbatim (raw : Json) (r : ResponseModel)
    (hv : ResponseModel.validate raw = .ok r) (hs : r.success = false) :
    getData raw = .error (.remoteOperationError r.error)
    ∧ postObject raw = .error (.remoteOperationError r.error)
    ∧ putObject raw = .error (.remoteOperationError r.error)
    ∧ deleteObject raw = .error (.remoteOperationError r.error)
    ∧ (∀ kvs s, raw = Json.obj kvs →
        JsonObj.lookup kvs "error" = Option.some (Json.str s) →
        r.error = Option.some s) := by
  refine ⟨getData_err hv hs, postObject_err hv hs, putObject_err hv hs,
    deleteObject_err hv hs, ?_⟩
  intro kvs s hraw hl
  subst hraw
  have hf := (responseModel_fields hv).2.1
  rw [show optField kvs "error" Json.asStr = .ok (Option.some s) from
    by simp [optField, hl, Json.isNull, Json.asStr]] at hf
  injection hf with hf
  exact hf.symm

/-- C2 witness: a concrete failure envelope with message "boom" makes the
GET and POST decoders raise the remote error with exactly that message,
even though a `data` payload is present. -/
theorem decode_failure_error_verbatim_witness :
    getData (Json.obj (.cons "success" (.bool false) (.cons "error" (.str "boom")
        (.cons "data" (.str "x") .nil)))) =
      .error (.remoteOperationError (Option.some "boom"))
    ∧ postObject (Json.obj (.cons "success" (.bool false) (.cons "error" (.str "boom")
        (.cons "data" (.str "x") .nil)))) =
      .error (.remoteOperationError (Option.some "boom")) := by
  have h := decode_failure_error_verbatim
    (Json.obj (.cons "success" (.bool false) (.cons "error" (.str "boom")
      (.cons "data" (.str "x") .nil))))
    (ResponseModel.mk false (Option.some "boom") (Option.some (Json.str "x"))) rfl rfl
  exact ⟨h.1, h.2.1⟩

/-- C3: on a successful envelope whose payload does not have the shape
the calling operation expects (`account` expects an object, `servers` a
list), the call fails with the shape-mismatch kind, which is a distinct
error kind from both the remote-operation kind and the validation kind,
so callers can tell a server-reported failure from a client-side
shape-expectation violation. -/
theorem shape_mismatch_distinct_kind (raw : Json) (r : ResponseModel)
    (hv : ResponseModel.validate raw = .ok r) (hs : r.success = true) :
    (dataIsObjShape r.data = false → Client.account raw = .error .shapeMismatchError)
    ∧ (dataIsListShape r.data = false → Client.servers raw = .error .shapeMismatchError)
    ∧ (∀ msg, ClientError.shapeMismatchError ≠ ClientError.remoteOperationError msg)
    ∧ (∀ es, ClientError.shapeMismatchError ≠ ClientError.validationError es) := by
  have hg := getData_ok hv hs
  refine ⟨?_, ?_, fun msg h => ClientError.noConfusion h,
    fun es h => ClientError.noConfusion h⟩
  · intro hd
    unfold Client.account
    rw [hg]
    rcases hdata : r.data with _ | d
    · rfl
    · rw [hdata] at hd
      rcases d with _ | b | n | q | s | xs | kvs2 <;>
        first
          | rfl
          | simp [dataIsObjShape] at hd
  · intro hd
    unfold Client.servers
    rw [hg]
    rcases hdata : r.data with _ | d
    · rfl
    · rw [hdata] at hd
      rcases d with _ | b | n | q | s | xs | kvs2 <;>
        first
          | rfl
          | simp [dataIsListShape] at hd

/-- C3 witness: a success envelope with a string payload makes both
`account` (which expects an object) and `servers` (which expects a list)
fail with the shape-mismatch kind. -/
theorem shape_mismatch_distinct_kind_witness :
    Client.account (Json.obj (.cons "success" (.bool true)
        (.cons "error" .null (.cons "data" (.str "x") .nil)))) =
      .error .shapeMismatchError
    ∧ Client.servers (Json.obj (.cons "success" (.bool true)
        (.cons "error" .null (.cons "data" (.str "x") .nil)))) =
      .error .shapeMismatchError := by
  have h := shape_mismatch_distinct_kind
    (Json.obj (.cons "success" (.bool true)
      (.cons "error" .null (.cons "data" (.str "x") .nil))))
    (ResponseModel.mk true Option.none (Option.some (Json.str "x"))) rfl rfl
  exact ⟨h.1 rfl, h.2.1 rfl⟩

/-- C4: `ServerStatus` decoding maps each of the integers 0-8 and 10 to
its named variant, and every other integer — including the intentionally
unused code 9 — fails validation (decodes to none). -/
theorem serverStatus_code_mapping :
    (ServerStatus.ofInt 0 = Option.some ServerStatus.offline
      ∧ ServerStatus.ofInt 1 = Option.some ServerStatus.online
      ∧ ServerStatus.ofInt 2 = Option.some ServerStatus.starting
      ∧ ServerStatus.ofInt 3 = Option.some ServerStatus.stopping
      ∧ ServerStatus.ofInt 4 = Option.some ServerStatus.restarting
      ∧ ServerStatus.ofInt 5 = Option.some ServerStatus.saving
      ∧ ServerStatus.ofInt 6 = Option.some ServerStatus.loading
      ∧ ServerStatus.ofInt 7 = Option.some ServerStatus.crashed
      ∧ ServerStatus.ofInt 8 = Option.some ServerStatus.pending
      ∧ ServerStatus.ofInt 10 = Option.some ServerStatus.preparing)
    ∧ (∀ n : Int, n ∉ ([0, 1, 2, 3, 4, 5, 6, 7, 8, 10] : List Int) →
        ServerStatus.ofInt n = Option.none) := by
  refine ⟨⟨rfl, rfl, rfl, rfl, rfl, rfl, rfl, rfl, rfl, rfl⟩, ?_⟩
  intro n hn
  simp only [List.mem_cons, List.not_mem_nil, or_false] at hn
  push_neg at hn
  obtain ⟨h0, h1, h2, h3, h4, h5, h6, h7, h8, h10⟩ := hn
  simp [ServerStatus.ofInt, h0, h1, h2, h3, h4, h5, h6, h7, h8, h10]

/-- C4 witness: the unused code 9, an out-of-range code 11 and a negative
code all fail `ServerStatus` decoding. -/
theorem serverStatus_code_mapping_witness :
    ServerStatus.ofInt 9 = Option.none
    ∧ ServerStatus.ofInt 11 = Option.none
    ∧ ServerStatus.ofInt (-1) = Option.none :=
  ⟨serverStatus_code_mapping.2 9 (by decide),
   serverStatus_code_mapping.2 11 (by decide),
   serverStatus_code_mapping.2 (-1) (by decide)⟩

/-- C10 counterexample: the claim says an envelope with `success:false`
and the `error` key absent still parses; the program's `Response` model
rejects it with required-field errors citing `error` and `data`. -/
theorem response_missing_error_key_rejected :
    ResponseModel.validate (Json.obj (.cons "success" (.bool false) .nil)) =
      .error ["error", "data"] :=
  rfl

/-- C10 (amended): the decoder does not enforce the invariant that
`success:false` implies a non-null `error`: an envelope with
`success:false` and `error` explicitly null parses as a valid `Response`
with `error = None`, and decoding raises the remote error carrying `None`
instead of rejecting the envelope; an envelope with the `error` (or
`data`) key absent, however, fails `Response` validation as a
required-field error rather than parsing. -/
theorem response_false_null_error_parses :
    ResponseModel.validate (Json.obj (.cons "success" (.bool false)
        (.cons "error" .null (.cons "data" .null .nil)))) =
      .ok (ResponseModel.mk false Option.none Option.none)
    ∧ getData (Json.obj (.cons "success" (.bool false)
        (.cons "error" .null (.cons "data" .null .nil)))) =
      .error (.remoteOperationError Option.none)
    ∧ ResponseModel.validate (Json.obj (.cons "success" (.bool false) .nil)) =
      .error ["error", "data"]
    ∧ ResponseModel.validate (Json.obj (.cons "success" (.bool false)
        (.cons "error" .null .nil))) =
      .error ["data"] :=
  ⟨rfl, rfl, rfl, rfl⟩

/-- C5 counterexample: a `ConfigOption` payload with declared
`type:"boolean"` and the string value `"true"`.  The claim says this
fails validation; on the code it validates (the union accepts any scalar
kind and no cross-field check against `type` exists), yielding the string
kind. -/
theorem configOption_string_under_boolean_validates :
    ConfigOption.validate (Json.obj (.cons "key" (.str "k") (.cons "value" (.str "true")
      (.cons "label" (.str "l") (.cons "type" (.str "boolean")
      (.cons "options" .null .nil)))))) =
      .ok (ConfigOption.mk "k" (ScalarValue.str "true") "l" "boolean" Option.none) :=
  rfl

/-- C5 (amended): `ConfigOption.value` is validated against the scalar
union only, not against the sibling `type` discriminator; the original
scalar kind of the wire value is preserved in the validated record (a
boolean stays a boolean, an integer stays an integer and is never widened
to float, etc.), and in particular `value:true` under `type:"boolean"`
validates with the boolean kind while the string `"true"` under the same
declared type also validates, with the string kind. -/
theorem configOption_value_kind_preserved :
    (∀ kvs c, ConfigOption.validate (Json.obj kvs) = .ok c →
      (∀ b, JsonObj.lookup kvs "value" = Option.some (Json.bool b) →
          c.value = ScalarValue.bool b)
      ∧ (∀ n, JsonObj.lookup kvs "value" = Option.some (Json.int n) →
          c.value = ScalarValue.int n)
      ∧ (∀ q, JsonObj.lookup kvs "value" = Option.some (Json.float q) →
          c.value = ScalarValue.float q)
      ∧ (∀ s, JsonObj.lookup kvs "value" = Option.some (Json.str s) →
          c.value = ScalarValue.str s))
    ∧ ConfigOption.validate (Json.obj (.cons "key" (.str "k") (.cons "value" (.bool true)
        (.cons "label" (.str "l") (.cons "type" (.str "boolean")
        (.cons "options" .null .nil)))))) =
      .ok (ConfigOption.mk "k" (ScalarValue.bool true) "l" "boolean" Option.none)
    ∧ ConfigOption.validate (Json.obj (.cons "key" (.str "k") (.cons "value" (.str "true")
        (.cons "label" (.str "l") (.cons "type" (.str "boolean")
        (.cons "options" .null .nil)))))) =
      .ok (ConfigOption.mk "k" (ScalarValue.str "true") "l" "boolean" Option.none) := by
  refine ⟨?_, rfl, rfl⟩
  intro kvs c hv
  refine ⟨?_, ?_, ?_, ?_⟩
  · intro b hl
    have hf := (configOption_fields hv).2.1
    rw [show reqField kvs "value" Json.asScalar = .ok (ScalarValue.bool b) from
      by simp [reqField, hl, Json.asScalar]] at hf
    injection hf with hf
    exact hf.symm
  · intro n hl
    have hf := (configOption_fields hv).2.1
    rw [show reqField kvs "value" Json.asScalar = .ok (ScalarValue.int n) from
      by simp [reqField, hl, Json.asScalar]] at hf
    injection hf with hf
    exact hf.symm
  · intro q hl
    have hf := (configOption_fields hv).2.1
    rw [show reqField kvs "value" Json.asScalar = .ok (ScalarValue.float q) from
      by simp [reqField, hl, Json.asScalar]] at hf
    injection hf with hf
    exact hf.symm
  · intro s hl
    have hf := (configOption_fields hv).2.1
    rw [show reqField kvs "value" Json.asScalar = .ok (ScalarValue.str s) from
      by simp [reqField, hl, Json.asScalar]] at hf
    injection hf with hf
    exact hf.symm

/-- C5 witness: applying the kind-preservation part at a concrete
integer-valued option: the validated record keeps the integer kind. -/
theorem configOption_value_kind_preserved_witness :
    (ConfigOption.mk "ram" (ScalarValue.int 42) "RAM" "int" Option.none).value =
      ScalarValue.int 42 :=
  (configOption_value_kind_preserved.1
    (.cons "key" (.str "ram") (.cons "value" (.int 42)
      (.cons "label" (.str "RAM") (.cons "type" (.str "int")
      (.cons "options" .null .nil)))))
    (ConfigOption.mk "ram" (ScalarValue.int 42) "RAM" "int" Option.none) rfl).2.1 42 rfl

/-- C7 counterexample: `start` with `use_own_credits=True` routes through
`_post_object`, whose `assert response_data.data is not None` rejects a
program-valid success envelope with `data: null`: the call fails with the
assertion (shape) error instead of returning None as the claim states for
all no-content acknowledgement paths. -/
theorem start_post_null_data_fails :
    Client.start (Json.obj (.cons "success" (.bool true)
        (.cons "error" .null (.cons "data" .null .nil)))) true =
      .error .shapeMismatchError
    ∧ Client.start (Json.obj (.cons "success" (.bool true)
        (.cons "error" .null (.cons "data" .null .nil)))) true ≠
      .ok Option.none := by
  refine ⟨rfl, ?_⟩
  intro h
  rw [show Client.start (Json.obj (.cons "success" (.bool true)
    (.cons "error" .null (.cons "data" .null .nil)))) true =
    .error .shapeMismatchError from rfl] at h
  exact Except.noConfusion h

/-- C7 (amended): for the GET-path no-content acknowledgements (`stop`,
`restart`, and `start` with `use_own_credits=False`), a success envelope
with `data` explicitly null is valid and the operation returns None — a
missing `data` key instead fails `Response` validation (required field);
`start` with `use_own_credits=True` goes through `_post_object`, which
asserts `data is not None`, so the null-data envelope fails there with
the assertion (shape) error. -/
theorem no_content_ack_returns_none (raw : Json) (r : ResponseModel)
    (hv : ResponseModel.validate raw = .ok r) (hs : r.success = true)
    (hd : r.data = Option.none) :
    Client.stop raw = .ok Option.none
    ∧ Client.restart raw = .ok Option.none
    ∧ Client.start raw false = .ok Option.none
    ∧ Client.start raw true = .error .shapeMismatchError
    ∧ Client.start (Json.obj (.cons "success" (.bool true)
        (.cons "error" .null .nil))) false = .error (.validationError ["data"]) := by
  have hg := getData_ok hv hs
  rw [hd] at hg
  have hp := postObject_none hv hs hd
  refine ⟨?_, ?_, ?_, ?_, rfl⟩
  · unfold Client.stop
    rw [hg]
  · unfold Client.restart
    rw [hg]
  · unfold Client.start
    rw [hg]
    simp
  · unfold Client.start
    rw [hp]
    simp

/-- C7 witness: on a concrete success envelope with no data key, `stop`
returns None while `start` with own credits fails with the shape error. -/
theorem no_content_ack_returns_none_witness :
    Client.stop (Json.obj (.cons "success" (.bool true)
        (.cons "error" .null (.cons "data" .null .nil)))) = .ok Option.none
    ∧ Client.start (Json.obj (.cons "success" (.bool true)
        (.cons "error" .null (.cons "data" .null .nil)))) true =
      .error .shapeMismatchError := by
  have h := no_content_ack_returns_none
    (Json.obj (.cons "success" (.bool true)
      (.cons "error" .null (.cons "data" .null .nil))))
    (ResponseModel.mk true Option.none Option.none) rfl rfl rfl
  exact ⟨h.1, h.2.2.2.1⟩

theorem server_exErrors (kvs : JsonObj) :
    exErrors (Server.validate (Json.obj kvs)) = Server.fieldErrors kvs := by
  simp only [Server.validate, Server.fieldErrors, exErrors_vApp, exErrors_ok,
    List.nil_append]

theorem account_exErrors (kvs : JsonObj) :
    exErrors (Account.validate (Json.obj kvs)) = Account.fieldErrors kvs := by
  simp only [Account.validate, Account.fieldErrors, exErrors_vApp, exErrors_ok,
    List.nil_append]

theorem server_ok_of_nil (kvs : JsonObj) (h : Server.fieldErrors kvs = []) :
    ∃ s, Server.validate (Json.obj kvs) = .ok s := by
  simp only [Server.fieldErrors, List.append_eq_nil] at h
  obtain ⟨⟨⟨⟨⟨⟨⟨⟨⟨h1, h2⟩, h3⟩, h4⟩, h5⟩, h6⟩, h7⟩, h8⟩, h9⟩, h10⟩ := h
  obtain ⟨a1, e1⟩ := ok_of_exErrors_nil (reqField_cases kvs "id" Json.asStr) h1
  obtain ⟨a2, e2⟩ := ok_of_exErrors_nil (reqField_cases kvs "name" Json.asStr) h2
  obtain ⟨a3, e3⟩ := ok_of_exErrors_nil (reqField_cases kvs "address" Json.asStr) h3
  obtain ⟨a4, e4⟩ := ok_of_exErrors_nil (reqField_cases kvs "motd" Json.asStr) h4
  obtain ⟨a5, e5⟩ := ok_of_exErrors_nil (reqField_cases kvs "status" ServerStatus.ofJson) h5
  obtain ⟨a6, e6⟩ := ok_of_exErrors_nil (optField_cases kvs "host" Json.asStr) h6
  obtain ⟨a7, e7⟩ := ok_of_exErrors_nil (optField_cases kvs "port" Json.asInt) h7
  obtain ⟨a8, e8⟩ := ok_of_exErrors_nil (reqSub_cases kvs "players" ServerPlayers.validate) h8
  obtain ⟨a9, e9⟩ := ok_of_exErrors_nil (optSub_cases kvs "software" ServerSoftware.validate) h9
  obtain ⟨a10, e10⟩ := ok_of_exErrors_nil (reqField_cases kvs "shared" Json.asBool) h10
  refine ⟨Server.mk a1 a2 a3 a4 a5 a6 a7 a8 a9 a10, ?_⟩
  simp only [Server.validate, e1, e2, e3, e4, e5, e6, e7, e8, e9, e10, vApp]

theorem account_ok_of_nil (kvs : JsonObj) (h : Account.fieldErrors kvs = []) :
    ∃ a, Account.validate (Json.obj kvs) = .ok a := by
  simp only [Account.fieldErrors, List.append_eq_nil] at h
  obtain ⟨⟨⟨h1, h2⟩, h3⟩, h4⟩ := h
  obtain ⟨a1, e1⟩ := ok_of_exErrors_nil (reqField_cases kvs "name" Json.asStr) h1
  obtain ⟨a2, e2⟩ := ok_of_exErrors_nil (reqField_cases kvs "email" Json.asStr) h2
  obtain ⟨a3, e3⟩ := ok_of_exErrors_nil (reqField_cases kvs "verified" Json.asBool) h3
  obtain ⟨a4, e4⟩ := ok_of_exErrors_nil (reqField_cases kvs "credits" Json.asFloat) h4
  refine ⟨Account.mk a1 a2 a3 a4, ?_⟩
  simp only [Account.validate, e1, e2, e3, e4, vApp]

/-- The `test_server` payload of the repository's test suite with the
`name` field replaced by the integer `123`. -/
def serverPayloadIntName : JsonObj :=
  .cons "id" (.str "EwYiY9IAMtQBTb6U") (.cons "name" (.int 123)
  (.cons "address" (.str "example.exaroton.me")
  (.cons "motd" (.str "Welcome to the server of example!")
  (.cons "status" (.int 0) (.cons "host" .null (.cons "port" .null
  (.cons "players" (.obj (.cons "max" (.int 20) (.cons "count" (.int 0)
    (.cons "list" (.arr .nil) .nil))))
  (.cons "software" (.obj (.cons "id" (.str "kb4p09ABvLjxzedx")
    (.cons "name" (.str "Vanilla") (.cons "version" (.str "1.16.5") .nil))))
  (.cons "shared" (.bool false) .nil)))))))))

/-- C6: domain-record construction is all-or-nothing: `Server` (and
`Account`) validation succeeds exactly when no field violates its
declared type, nullability or enum constraint, and on failure the raised
error enumerates exactly the violating fields, in declaration order, not
only the first; concretely, the test-suite `Server` payload with an
integer `name` fails validation citing the `name` field. -/
theorem record_validation_all_or_nothing :
    (∀ kvs, (Server.fieldErrors kvs = [] ↔ ∃ s, Server.validate (Json.obj kvs) = .ok s)
      ∧ (∀ es, Server.validate (Json.obj kvs) = .error es →
          es = Server.fieldErrors kvs ∧ es ≠ []))
    ∧ (∀ kvs, (Account.fieldErrors kvs = [] ↔ ∃ a, Account.validate (Json.obj kvs) = .ok a)
      ∧ (∀ es, Account.validate (Json.obj kvs) = .error es →
          es = Account.fieldErrors kvs ∧ es ≠ []))
    ∧ Server.validate (Json.obj serverPayloadIntName) = .error ["name"] := by
  refine ⟨?_, ?_, rfl⟩
  · intro kvs
    constructor
    · constructor
      · exact server_ok_of_nil kvs
      · rintro ⟨s, hs⟩
        have he := server_exErrors kvs
        rw [hs] at he
        simpa [exErrors] using he.symm
    · intro es hes
      have he := server_exErrors kvs
      rw [hes] at he
      have heq : es = Server.fieldErrors kvs := by simpa [exErrors] using he
      refine ⟨heq, ?_⟩
      intro hnil
      have hfe : Server.fieldErrors kvs = [] := by rw [← heq, hnil]
      obtain ⟨s, hs⟩ := server_ok_of_nil kvs hfe
      rw [hs] at hes
      exact Except.noConfusion hes
  · intro kvs
    constructor
    · constructor
      · exact account_ok_of_nil kvs
      · rintro ⟨a, ha⟩
        have he := account_exErrors kvs
        rw [ha] at he
        simpa [exErrors] using he.symm
    · intro es hes
      have he := account_exErrors kvs
      rw [hes] at he
      have heq : es = Account.fieldErrors kvs := by simpa [exErrors] using he
      refine ⟨heq, ?_⟩
      intro hnil
      have hfe : Account.fieldErrors kvs = [] := by rw [← heq, hnil]
      obtain ⟨a, ha⟩ := account_ok_of_nil kvs hfe
      rw [ha] at hes
      exact Except.noConfusion hes

/-- C6 witness: applying the enumeration part to the concrete bad-name
payload: the raised error list is exactly the violating field list and is
non-empty. -/
theorem record_validation_all_or_nothing_witness :
    (["name"] : FieldErrors) = Server.fieldErrors serverPayloadIntName
    ∧ (["name"] : FieldErrors) ≠ [] :=
  (record_validation_all_or_nothing.1 serverPayloadIntName).2 ["name"] rfl

theorem childrenOf_missing : ∀ (kvs : JsonObj),
    JsonObj.lookup kvs "children" = Option.none →
    PathInfo.childrenOf kvs = .error ["children"]
  | .nil, _ => rfl
  | .cons k v rest, h => by
      simp only [JsonObj.lookup] at h
      by_cases hk : k = "children"
      · rw [if_pos hk] at h
        exact Option.noConfusion h
      · rw [if_neg hk] at h
        simp only [PathInfo.childrenOf]
        rw [if_neg hk]
        exact childrenOf_missing rest h

theorem childrenOf_found : ∀ (kvs : JsonObj) (v : Json),
    JsonObj.lookup kvs "children" = Option.some v →
    PathInfo.childrenOf kvs = PathInfo.childrenValue v
  | .nil, v, h => by simp [JsonObj.lookup] at h
  | .cons k v' rest, v, h => by
      simp only [JsonObj.lookup] at h
      by_cases hk : k = "children"
      · rw [if_pos hk] at h
        injection h with h
        subst h
        simp only [PathInfo.childrenOf]
        rw [if_pos hk]
      · rw [if_neg hk] at h
        simp only [PathInfo.childrenOf]
        rw [if_neg hk]
        exact childrenOf_found rest v h

theorem childrenOf_null {kvs : JsonObj}
    (h : JsonObj.lookup kvs "children" = Option.some Json.null) :
    PathInfo.childrenOf kvs = .ok PathChildren.none := by
  rw [childrenOf_found kvs Json.null h]
  rfl

/-- The concatenation of the per-field error lists of `PathInfo(**data)`,
in field declaration order. -/
def PathInfo.fieldErrors (kvs : JsonObj) : FieldErrors :=
  exErrors (reqField kvs "path" Json.asStr) ++
  exErrors (reqField kvs "name" Json.asStr) ++
  exErrors (reqField kvs "isTextFile" Json.asBool) ++
  exErrors (reqField kvs "isConfigFile" Json.asBool) ++
  exErrors (reqField kvs "isDirectory" Json.asBool) ++
  exErrors (reqField kvs "isLog" Json.asBool) ++
  exErrors (reqField kvs "isReadable" Json.asBool) ++
  exErrors (reqField kvs "isWritable" Json.asBool) ++
  exErrors (reqField kvs "size" Json.asInt) ++
  exErrors (PathInfo.childrenOf kvs)

theorem pathInfo_exErrors (kvs : JsonObj) :
    exErrors (PathInfo.validate (Json.obj kvs)) = PathInfo.fieldErrors kvs := by
  simp only [PathInfo.validate, PathInfo.fieldErrors, exErrors_vApp, exErrors_ok,
    List.nil_append]

/-- The concatenation of the per-field error lists of `ConfigOption(**data)`,
in field declaration order. -/
def ConfigOption.fieldErrors (kvs : JsonObj) : FieldErrors :=
  exErrors (reqField kvs "key" Json.asStr) ++
  exErrors (reqField kvs "value" Json.asScalar) ++
  exErrors (reqField kvs "label" Json.asStr) ++
  exErrors (reqField kvs "type" Json.asStr) ++
  exErrors (optField kvs "options" Json.asScalarOptions)

theorem configOption_exErrors (kvs : JsonObj) :
    exErrors (ConfigOption.validate (Json.obj kvs)) = ConfigOption.fieldErrors kvs := by
  simp only [ConfigOption.validate, ConfigOption.fieldErrors, exErrors_vApp, exErrors_ok,
    List.nil_append]

theorem error_of_mem_exErrors {α : Type} {e : Except FieldErrors α} {nm : String}
    (hm : nm ∈ exErrors e) : ∃ es, e = .error es ∧ nm ∈ es := by
  cases e with
  | error es => exact ⟨es, rfl, hm⟩
  | ok a => simp [exErrors] at hm

/-- A `Server` payload as in the repository's `test_server`, but with no
`host` key at all (`port` and `software` explicitly null). -/
def serverKvsNoHost : JsonObj :=
  .cons "id" (.str "EwYiY9IAMtQBTb6U") (.cons "name" (.str "example")
  (.cons "address" (.str "example.exaroton.me")
  (.cons "motd" (.str "Welcome to the server of example!")
  (.cons "status" (.int 0) (.cons "port" .null
  (.cons "players" (.obj (.cons "max" (.int 20) (.cons "count" (.int 0)
    (.cons "list" (.arr .nil) .nil))))
  (.cons "software" .null (.cons "shared" (.bool false) .nil))))))))

/-- The same payload with an explicit `host: null` entry added. -/
def serverKvsHostNull : JsonObj := .cons "host" .null serverKvsNoHost

/-- C8 counterexample: on the test-suite `Server` payload, omitting the
`host` key fails validation with a required-field error citing `host`,
while the same payload with an explicit `host: null` validates with
`host = None` — so a missing key and an explicit null are not treated
identically, contrary to the claim. -/
theorem server_missing_host_fails :
    Server.validate (Json.obj serverKvsNoHost) = .error ["host"]
    ∧ Server.validate (Json.obj serverKvsHostNull) =
        .ok (Server.mk "EwYiY9IAMtQBTb6U" "example" "example.exaroton.me"
          "Welcome to the server of example!" ServerStatus.offline Option.none Option.none
          (ServerPlayers.mk 20 0 []) Option.none false)
    ∧ Server.validate (Json.obj serverKvsNoHost) ≠
        Server.validate (Json.obj serverKvsHostNull) := by
  refine ⟨rfl, rfl, ?_⟩
  intro h
  rw [show Server.validate (Json.obj serverKvsNoHost) = .error ["host"] from rfl,
    show Server.validate (Json.obj serverKvsHostNull) =
      .ok (Server.mk "EwYiY9IAMtQBTb6U" "example" "example.exaroton.me"
        "Welcome to the server of example!" ServerStatus.offline Option.none Option.none
        (ServerPlayers.mk 20 0 []) Option.none false) from rfl] at h
  exact Except.noConfusion h

/-- C8 (amended): for each optional field (`Server.host`, `Server.port`,
`Server.software`, `PathInfo.children`, `ConfigOption.options`) an
explicit null validates with the field set to none — never defaulted to
an empty or zero value — while a missing key fails validation with a
required-field error citing the field: a missing key and an explicit
null are not treated identically. -/
theorem optional_null_vs_missing :
    (∀ kvs s, JsonObj.lookup kvs "host" = Option.some Json.null →
        Server.validate (Json.obj kvs) = .ok s → s.host = Option.none)
    ∧ (∀ kvs s, JsonObj.lookup kvs "port" = Option.some Json.null →
        Server.validate (Json.obj kvs) = .ok s → s.port = Option.none)
    ∧ (∀ kvs s, JsonObj.lookup kvs "software" = Option.some Json.null →
        Server.validate (Json.obj kvs) = .ok s → s.software = Option.none)
    ∧ (∀ kvs p, JsonObj.lookup kvs "children" = Option.some Json.null →
        PathInfo.validate (Json.obj kvs) = .ok p → PathInfo.children p = PathChildren.none)
    ∧ (∀ kvs c, JsonObj.lookup kvs "options" = Option.some Json.null →
        ConfigOption.validate (Json.obj kvs) = .ok c → c.options = Option.none)
    ∧ (∀ kvs, JsonObj.lookup kvs "host" = Option.none →
        ∃ es, Server.validate (Json.obj kvs) = .error es ∧ "host" ∈ es)
    ∧ (∀ kvs, JsonObj.lookup kvs "port" = Option.none →
        ∃ es, Server.validate (Json.obj kvs) = .error es ∧ "port" ∈ es)
    ∧ (∀ kvs, JsonObj.lookup kvs "software" = Option.none →
        ∃ es, Server.validate (Json.obj kvs) = .error es ∧ "software" ∈ es)
    ∧ (∀ kvs, JsonObj.lookup kvs "children" = Option.none →
        ∃ es, PathInfo.validate (Json.obj kvs) = .error es ∧ "children" ∈ es)
    ∧ (∀ kvs, JsonObj.lookup kvs "options" = Option.none →
        ∃ es, ConfigOption.validate (Json.obj kvs) = .error es ∧ "options" ∈ es) := by
  refine ⟨?_, ?_, ?_, ?_, ?_, ?_, ?_, ?_, ?_, ?_⟩
  · intro kvs s hnull hok
    have hf := (server_fields hok).2.2.2.2.2.1
    rw [optField_ok_null Json.asStr hnull] at hf
    injection hf with hf
    exact hf.symm
  · intro kvs s hnull hok
    have hf := (server_fields hok).2.2.2.2.2.2.1
    rw [optField_ok_null Json.asInt hnull] at hf
    injection hf with hf
    exact hf.symm
  · intro kvs s hnull hok
    have hf := (server_fields hok).2.2.2.2.2.2.2.2.1
    rw [optSub_ok_null ServerSoftware.validate hnull] at hf
    injection hf with hf
    exact hf.symm
  · intro kvs p hnull hok
    have hf := (pathInfo_fields hok).2
    rw [childrenOf_null hnull] at hf
    injection hf with hf
    exact hf.symm
  · intro kvs c hnull hok
    have hf := (configOption_fields hok).2.2.2.2
    rw [optField_ok_null Json.asScalarOptions hnull] at hf
    injection hf with hf
    exact hf.symm
  · intro kvs h
    apply error_of_mem_exErrors
    rw [server_exErrors]
    simp [Server.fieldErrors, optField_missing Json.asStr h, exErrors]
  · intro kvs h
    apply error_of_mem_exErrors
    rw [server_exErrors]
    simp [Server.fieldErrors, optField_missing Json.asInt h, exErrors]
  · intro kvs h
    apply error_of_mem_exErrors
    rw [server_exErrors]
    simp [Server.fieldErrors, optSub_missing ServerSoftware.validate h, exErrors]
  · intro kvs h
    apply error_of_mem_exErrors
    rw [pathInfo_exErrors]
    simp [PathInfo.fieldErrors, childrenOf_missing kvs h, exErrors]
  · intro kvs h
    apply error_of_mem_exErrors
    rw [configOption_exErrors]
    simp [ConfigOption.fieldErrors, optField_missing Json.asScalarOptions h, exErrors]

/-- C8 witness: on the concrete test payload, an explicit `host: null`
validates with `host = None`, while omitting the `host` key fails with an
error citing `host`. -/
theorem optional_null_vs_missing_witness :
    (Server.mk "EwYiY9IAMtQBTb6U" "example" "example.exaroton.me"
        "Welcome to the server of example!" ServerStatus.offline Option.none Option.none
        (ServerPlayers.mk 20 0 []) Option.none false).host = Option.none
    ∧ (∃ es, Server.validate (Json.obj serverKvsNoHost) = .error es ∧ "host" ∈ es) := by
  constructor
  · exact optional_null_vs_missing.1 serverKvsHostNull
      (Server.mk "EwYiY9IAMtQBTb6U" "example" "example.exaroton.me"
        "Welcome to the server of example!" ServerStatus.offline Option.none Option.none
        (ServerPlayers.mk 20 0 []) Option.none false) rfl rfl
  · exact optional_null_vs_missing.2.2.2.2.2.1 serverKvsNoHost rfl

/-- A leaf file-info payload: `children` explicitly null, wire keys in
the aliased camel-case form. -/
def jLeaf : Json :=
  .obj (.cons "path" (.str "/log/latest.log") (.cons "name" (.str "latest.log")
  (.cons "isTextFile" (.bool true) (.cons "isConfigFile" (.bool false)
  (.cons "isDirectory" (.bool false) (.cons "isLog" (.bool true)
  (.cons "isReadable" (.bool true) (.cons "isWritable" (.bool true)
  (.cons "size" (.int 2048) (.cons "children" .null .nil))))))))))

/-- The validated record of `jLeaf`: a leaf with no children. -/
def pLeaf : PathInfo :=
  .mk "/log/latest.log" "latest.log" true false false true true true 2048 .none

/-- A directory-node payload nested `n` levels deep: `jNode 0` is the
leaf, `jNode (n+1)` is a directory whose `children` list holds `jNode n`. -/
def jNode : Nat → Json
  | 0 => jLeaf
  | n + 1 =>
      .obj (.cons "path" (.str "/dir") (.cons "name" (.str "dir")
      (.cons "isTextFile" (.bool false) (.cons "isConfigFile" (.bool false)
      (.cons "isDirectory" (.bool true) (.cons "isLog" (.bool false)
      (.cons "isReadable" (.bool true) (.cons "isWritable" (.bool true)
      (.cons "size" (.int 0)
      (.cons "children" (.arr (.cons (jNode n) .nil)) .nil))))))))))

/-- The expected validated tree of `jNode n`. -/
def pNode : Nat → PathInfo
  | 0 => pLeaf
  | n + 1 => .mk "/dir" "dir" false false true false true true 0
      (.some (.cons (pNode n) .nil))

/-- C9: `PathInfo` validation is recursive with no depth limit: the node
with `children: null` validates as a leaf with no children, and the
nested payload of any depth `n` validates recursively (through the
declared wire aliases such as `isTextFile`) into a record tree of exactly
that depth. -/
theorem pathInfo_unbounded_depth :
    (∀ n, PathInfo.validate (jNode n) = .ok (pNode n))
    ∧ (∀ n, PathInfo.depth (pNode n) = n + 1)
    ∧ PathInfo.validate jLeaf = .ok pLeaf
    ∧ PathInfo.children pLeaf = PathChildren.none := by
  have hval : ∀ n, PathInfo.validate (jNode n) = .ok (pNode n) := by
    intro n
    induction n with
    | zero => rfl
    | succ m ih =>
      simp only [jNode, pNode]
      simp [PathInfo.validate, PathInfo.childrenOf, PathInfo.childrenValue,
        PathInfo.validateList, reqField, JsonObj.lookup, Json.asStr, Json.asBool,
        Json.asInt, vApp, ih]
  have hdep : ∀ n, PathInfo.depth (pNode n) = n + 1 := by
    intro n
    induction n with
    | zero => rfl
    | succ m ih =>
      simp [pNode, PathInfo.depth, PathChildren.depth, PathInfoList.depth, ih]
      omega
  exact ⟨hval, hdep, hval 0, rfl⟩
